import Mathlib

/-!
Verification of the stardew-website celestial scene code.

The definitions below are shallow embeddings of the JavaScript source:

* `src/js/utils.js`   — `easeInOutSine`
* `src/js/config.js`  — the `CONFIG` constant (the fields the claims need)
* `src/js/meteors.js` — star/planet generation (`generateStars`,
  `getSpectralColor`, `getTwinkleOpacity`), meteor keyframe synthesis
  (`generateMeteorKeyframes`), angle selection (`selectMeteorAngle`) and the
  meteor scheduler (`startMeteors` / `stopMeteors`).

`Math.random()` results are modelled as a stream `ℕ → ℚ` (every IEEE-754
double in `[0,1)` is a rational, so this loses nothing); real-valued
arithmetic (`Math.cos`, `Math.pow`, …) is modelled over `ℝ`.  The JavaScript
remainder `%` on the nonnegative operands the code feeds it is `jsMod`.
-/

namespace Stardew

open Real

noncomputable section

/-- From `src/js/utils.js`: `easeInOutSine(t) { return -(Math.cos(Math.PI * t) - 1) / 2; }` -/
def easeInOutSine (t : ℝ) : ℝ := -(Real.cos (π * t) - 1) / 2

/-- JavaScript `x % y` for `0 ≤ x`, `0 < y` (the only case the code uses). -/
def jsMod (x y : ℝ) : ℝ := x - y * ⌊x / y⌋

/-- A star record as built by `generateStars` in `src/js/meteors.js`.
Static stars carry `opacity` (their twinkle fields are unused, modelled 0);
twinkling stars carry `twinkleDelay`/`twinkleDuration` (opacity unused, 0). -/
structure Star where
  x : ℝ
  y : ℝ
  size : ℝ
  color : String
  isStatic : Bool
  opacity : ℝ
  twinkleDelay : ℝ
  twinkleDuration : ℝ

/-- A planet record as built by `generateStars` in `src/js/meteors.js`. -/
structure Planet where
  x : ℝ
  y : ℝ
  size : ℝ
  color : String
  opacity : ℝ
  name : String

/-- One entry of `CONFIG.stars.spectralClasses` (`src/js/config.js`). -/
structure SpectralClass where
  type : String
  color : String
  percentage : ℚ

/-- One entry of `CONFIG.planets` (`src/js/config.js`). -/
structure PlanetDef where
  name : String
  color : String
  size : ℝ
  opacity : ℝ

-- CONFIG constants from src/js/config.js (the fields used by the claims).
def CONFIG.stars.countDesktop : ℕ := 1200
def CONFIG.stars.countMobile : ℕ := 800
def CONFIG.stars.mobileBreakpoint : ℚ := 768
def CONFIG.stars.maxSize : ℝ := 3
def CONFIG.stars.minSize : ℝ := 1
def CONFIG.stars.animationDelayMax : ℝ := 6
def CONFIG.stars.animationDurationMin : ℝ := 4
def CONFIG.stars.animationDurationMax : ℝ := 10
def CONFIG.stars.twinkleOpacityMin : ℝ := 0.4
def CONFIG.stars.twinkleOpacityMax : ℝ := 1.0
def CONFIG.stars.staticPercentage : ℚ := 0.3
def CONFIG.stars.staticOpacityMin : ℝ := 0.4
def CONFIG.stars.staticOpacityMax : ℝ := 0.7

def CONFIG.stars.spectralClasses : List SpectralClass :=
  [ ⟨"O-B", "rgba(155, 176, 255,", 0.05⟩
  , ⟨"A", "rgba(202, 215, 255,", 0.15⟩
  , ⟨"F-G", "rgba(248, 247, 255,", 0.3⟩
  , ⟨"K", "rgba(255, 210, 161,", 0.3⟩
  , ⟨"M", "rgba(255, 204, 111,", 0.2⟩ ]

def CONFIG.stars.binaryPercentage : ℚ := 0.025
def CONFIG.stars.binarySeparationMin : ℝ := 2
def CONFIG.stars.binarySeparationMax : ℝ := 8

def CONFIG.planets : List PlanetDef :=
  [ ⟨"Venus", "rgba(255, 250, 235,", 4.5, 0.95⟩
  , ⟨"Jupiter", "rgba(255, 244, 229,", 4.2, 0.9⟩
  , ⟨"Mars", "rgba(255, 180, 140,", 3.5, 0.85⟩
  , ⟨"Saturn", "rgba(255, 245, 220,", 3.8, 0.88⟩
  , ⟨"Mercury", "rgba(230, 235, 255,", 3, 0.8⟩ ]

def CONFIG.meteors.singleMeteorStreamCount : ℕ := 2

/-- The cumulative-sum walk inside `getSpectralColor` (`src/js/meteors.js`):
`for (const spectralClass of CONFIG.stars.spectralClasses) { cumulative += ..;
if (rand <= cumulative) return spectralClass.color; }`.  `none` models falling
off the end of the loop. -/
def spectralLoop (rand : ℚ) : List SpectralClass → ℚ → Option String
  | [], _ => none
  | c :: rest, cumulative =>
    let cum := cumulative + c.percentage
    if rand ≤ cum then some c.color else spectralLoop rand rest cum

/-- From `src/js/meteors.js` `getSpectralColor()`; the `Math.random()` draw is
passed in.  The post-loop fallback is `CONFIG.stars.spectralClasses[2].color`
("Default to F-G" in the source). -/
def getSpectralColor (rand : ℚ) : String :=
  match spectralLoop rand CONFIG.stars.spectralClasses 0 with
  | some color => color
  | none => (CONFIG.stars.spectralClasses.getD 2 ⟨"", "", 0⟩).color

/-- Preset meteor trajectory angles (`METEOR_ANGLES` in `src/js/meteors.js`). -/
def METEOR_ANGLES : List ℝ := [130, 135, 140, 145, 150, 155, 160, 165]

/-- The reducer inside `selectMeteorAngle`:
`(prev, curr) => Math.abs(curr - baseAngle) < Math.abs(prev - baseAngle) ? curr : prev`. -/
def closestStep (baseAngle prev curr : ℝ) : ℝ :=
  if |curr - baseAngle| < |prev - baseAngle| then curr else prev

/-- From `src/js/meteors.js` `selectMeteorAngle(baseAngle)` in the shower case
(`baseAngle !== null`): `METEOR_ANGLES.reduce(...)`.  JavaScript `reduce`
without a seed starts from the first element and folds over the rest. -/
def selectMeteorAngle (baseAngle : ℝ) : ℝ :=
  METEOR_ANGLES.tail.foldl (closestStep baseAngle) (METEOR_ANGLES.headD 0)

/-- From `src/js/meteors.js` `getTwinkleOpacity(star, currentTime)`.  The
module-level constant `startTime` (captured at load) is passed explicitly. -/
def getTwinkleOpacity (startTime : ℝ) (star : Star) (currentTime : ℝ) : ℝ :=
  let elapsed := currentTime - startTime - star.twinkleDelay
  if elapsed < 0 then CONFIG.stars.twinkleOpacityMin
  else
    let cyclePosition := jsMod elapsed star.twinkleDuration / star.twinkleDuration
    let easedPosition := easeInOutSine cyclePosition
    CONFIG.stars.twinkleOpacityMin +
      easedPosition * (CONFIG.stars.twinkleOpacityMax - CONFIG.stars.twinkleOpacityMin)

/-- Concrete star used to witness the twinkle theorems: `twinkleDelay = 1`,
`twinkleDuration = 2`. -/
def twinkleWitnessStar : Star :=
  ⟨0, 0, 1, "rgba(248, 247, 255,", false, 0, 1, 2⟩

end

/-- The distance tiers (`DISTANCE_TIERS = ["short", "med", "long"]` in
`src/js/meteors.js`). -/
inductive Tier where
  | short
  | med
  | long
deriving DecidableEq

def DISTANCE_TIERS : List Tier := [Tier.short, Tier.med, Tier.long]

noncomputable section

/-- The `distances` object inside `generateMeteorKeyframes`
(`src/js/meteors.js`): `{ short: heroDiagonal - 25, med: heroDiagonal,
long: heroDiagonal + 25 }`. -/
def distances (heroDiagonal : ℝ) : Tier → ℝ
  | Tier.short => heroDiagonal - 25
  | Tier.med => heroDiagonal
  | Tier.long => heroDiagonal + 25

/-- The structured content of one generated `@keyframes` rule: the angle and
tier naming it (`meteor-angle-tier`) and the 100%-frame translation
`(endX, endY)`. -/
structure Keyframe where
  angle : ℝ
  tier : Tier
  endX : ℝ
  endY : ℝ

/-- From `src/js/meteors.js` `generateMeteorKeyframes()`: for every angle in
`METEOR_ANGLES` and tier in `DISTANCE_TIERS`, emit the keyframe whose end
displacement is `(cos(radians)·distance, sin(radians)·distance)`.  A falsy
(`0`) `heroDiagonal` aborts with no keyframes. -/
def generateMeteorKeyframes (heroDiagonal : ℝ) : List Keyframe :=
  if heroDiagonal = 0 then []
  else
    METEOR_ANGLES.flatMap fun angle =>
      let radians := angle * π / 180
      DISTANCE_TIERS.map fun tier =>
        let distance := distances heroDiagonal tier
        { angle := angle, tier := tier,
          endX := Real.cos radians * distance,
          endY := Real.sin radians * distance }

/-- Mathematical `atan2(y, x)` (used by the claim to state the displacement
direction). -/
def atan2 (y x : ℝ) : ℝ :=
  if 0 < x then Real.arctan (y / x)
  else if x < 0 ∧ 0 ≤ y then Real.arctan (y / x) + π
  else if x < 0 ∧ y < 0 then Real.arctan (y / x) - π
  else if x = 0 ∧ 0 < y then π / 2
  else if x = 0 ∧ y < 0 then -(π / 2)
  else 0

/-- The first keyframe generated for viewport diagonal 1: angle 130, tier
"short", whose tier distance `1 - 25` is negative. -/
def badKeyframe : Keyframe :=
  { angle := 130, tier := Tier.short,
    endX := Real.cos (130 * π / 180) * distances 1 Tier.short,
    endY := Real.sin (130 * π / 180) * distances 1 Tier.short }

end

-- ============================================================
-- Star and planet generation (generateStars in src/js/meteors.js)
-- ============================================================

/-- The `Math.random()` source: a stream of draws.  Every IEEE-754 double in
`[0,1)` is rational, so `ℚ` loses nothing. -/
def RNG : Type := ℕ → ℚ

/-- From `src/js/utils.js` `getStarCount()`; `window.innerWidth` is passed
in. -/
def getStarCount (innerWidth : ℚ) : ℕ :=
  if innerWidth < CONFIG.stars.mobileBreakpoint then CONFIG.stars.countMobile
  else CONFIG.stars.countDesktop

/-- The dimension check of `generateStars`
(`!canvasWidth || !canvasHeight || canvasWidth <= 0 || canvasHeight <= 0`):
`none` models `undefined`, and a number is rejected when it is falsy (`0`)
or nonpositive — together, when it is `≤ 0`. -/
def dimInvalid : Option ℚ → Bool
  | none => true
  | some v => decide (v ≤ 0)

/-- The star/planet population owned by `src/js/meteors.js` (the module-level
`stars` and `planets` arrays). -/
structure SkyState where
  stars : List Star
  planets : List Planet

noncomputable section

/-- One iteration of the `generateStars` loop (`src/js/meteors.js`): the
primary star built from draws `g 0` (x), `g 1` (y, biased by `Math.pow(_,
1.5)`), `g 2` (size), `g 3` (spectral color), `g 4` (static?), then the
static-opacity or twinkle-timing draws, the binary-companion draw, and, with
probability `binaryPercentage`, a companion star at a random offset.  Returns
the stars pushed by this iteration and the number of draws consumed, in the
exact order the source calls `Math.random()`. -/
def genStarGroup (canvasWidth canvasHeight : ℝ) (g : RNG) : List Star × ℕ :=
  let x : ℝ := (g 0 : ℝ) * canvasWidth
  let y : ℝ := ((g 1 : ℝ) ^ (1.5 : ℝ)) * canvasHeight
  let size : ℝ := CONFIG.stars.minSize +
    (g 2 : ℝ) * (CONFIG.stars.maxSize - CONFIG.stars.minSize)
  let color := getSpectralColor (g 3)
  let primary : Star :=
    if g 4 < CONFIG.stars.staticPercentage then
      { x := x, y := y, size := size, color := color, isStatic := true,
        opacity := CONFIG.stars.staticOpacityMin +
          (g 5 : ℝ) * (CONFIG.stars.staticOpacityMax - CONFIG.stars.staticOpacityMin),
        twinkleDelay := 0, twinkleDuration := 0 }
    else
      { x := x, y := y, size := size, color := color, isStatic := false, opacity := 0,
        twinkleDelay := (g 5 : ℝ) * CONFIG.stars.animationDelayMax * 1000,
        twinkleDuration := (CONFIG.stars.animationDurationMin +
          (g 6 : ℝ) * (CONFIG.stars.animationDurationMax -
            CONFIG.stars.animationDurationMin)) * 1000 }
  let b : ℕ := if g 4 < CONFIG.stars.staticPercentage then 6 else 7
  if g b < CONFIG.stars.binaryPercentage then
    let angle : ℝ := (g (b + 1) : ℝ) * π * 2
    let separation : ℝ := CONFIG.stars.binarySeparationMin +
      (g (b + 2) : ℝ) * (CONFIG.stars.binarySeparationMax - CONFIG.stars.binarySeparationMin)
    let companionX := x + Real.cos angle * separation
    let companionY := y + Real.sin angle * separation
    let companionSize := size * (0.6 + (g (b + 3) : ℝ) * 0.3)
    let companion : Star :=
      if g 4 < CONFIG.stars.staticPercentage then
        { x := companionX, y := companionY, size := companionSize, color := color,
          isStatic := true,
          opacity := CONFIG.stars.staticOpacityMin +
            (g (b + 4) : ℝ) * (CONFIG.stars.staticOpacityMax - CONFIG.stars.staticOpacityMin),
          twinkleDelay := 0, twinkleDuration := 0 }
      else
        { x := companionX, y := companionY, size := companionSize, color := color,
          isStatic := false, opacity := 0,
          twinkleDelay := (g (b + 4) : ℝ) * CONFIG.stars.animationDelayMax * 1000,
          twinkleDuration := (CONFIG.stars.animationDurationMin +
            (g (b + 5) : ℝ) * (CONFIG.stars.animationDurationMax -
              CONFIG.stars.animationDurationMin)) * 1000 }
    ([primary, companion], b + 4 + (if g 4 < CONFIG.stars.staticPercentage then 1 else 2))
  else
    ([primary], b + 1)

/-- The `for (let i = 0; i < numStars; i++)` loop of `generateStars`,
threading the draw stream through the iterations; returns the accumulated
star list and the total number of draws consumed. -/
def genStarsLoop (canvasWidth canvasHeight : ℝ) : ℕ → RNG → List Star × ℕ
  | 0, _ => ([], 0)
  | n + 1, g =>
    let grp := genStarGroup canvasWidth canvasHeight g
    let rest := genStarsLoop canvasWidth canvasHeight n (fun i => g (i + grp.2))
    (grp.1 ++ rest.1, grp.2 + rest.2)

/-- The `CONFIG.planets.forEach((planet, index) => ...)` pass of
`generateStars`: evenly spaced base X, random base Y in the top 60%, and
±7.5% centered jitter on both axes; three draws per planet. -/
def genPlanetsLoop (canvasWidth canvasHeight : ℝ) :
    List PlanetDef → ℕ → RNG → List Planet
  | [], _, _ => []
  | p :: rest, index, g =>
    let baseX := canvasWidth / (CONFIG.planets.length + 1) * ((index : ℝ) + 1)
    let baseY := canvasHeight * (0.2 + (g 0 : ℝ) * 0.4)
    let offsetX := ((g 1 : ℝ) - 0.5) * canvasWidth * 0.15
    let offsetY := ((g 2 : ℝ) - 0.5) * canvasHeight * 0.15
    { x := baseX + offsetX, y := baseY + offsetY, size := p.size, color := p.color,
      opacity := p.opacity, name := p.name }
      :: genPlanetsLoop canvasWidth canvasHeight rest (index + 1) (fun i => g (i + 3))

/-- From `src/js/meteors.js` `generateStars(canvasWidth, canvasHeight)`.
On invalid dimensions the source warns, assigns `stars = []` and returns —
the `planets` array is left as it was.  Otherwise it generates
`getStarCount()` star groups and then the five planets. -/
def generateStars (prior : SkyState) (innerWidth : ℚ)
    (canvasWidth canvasHeight : Option ℚ) (g : RNG) : SkyState :=
  if dimInvalid canvasWidth || dimInvalid canvasHeight then
    { stars := [], planets := prior.planets }
  else
    let w : ℝ := (canvasWidth.getD 0 : ℝ)
    let h : ℝ := (canvasHeight.getD 0 : ℝ)
    let numStars := getStarCount innerWidth
    let sl := genStarsLoop w h numStars g
    let planets := genPlanetsLoop w h CONFIG.planets 0 (fun i => g (i + sl.2))
    { stars := sl.1, planets := planets }

end

/-- A draw stream whose eighth draw (`g 7`, the companion-direction draw of
the first loop iteration when the primary is static) is `1/2` — giving a
companion angle of `π` — and all other draws are `0`. -/
def badRng : RNG := fun n => if n = 7 then 1/2 else 0

noncomputable section

/-- The primary star produced by the first iteration of
`genStarsLoop _ _ _ badRng` on a 100×100 canvas. -/
def badPrimaryStar : Star :=
  ⟨0, 0, 1, "rgba(155, 176, 255,", true, 0.4, 0, 0⟩

/-- The binary companion produced by the first iteration of
`genStarsLoop _ _ _ badRng` on a 100×100 canvas: offset by `cos π · 2 = -2`
from its primary at `x = 0`, hence at `x = -2`, outside the canvas. -/
def badCompanionStar : Star :=
  ⟨-2, 0, 0.6, "rgba(155, 176, 255,", true, 0.4, 0, 0⟩

/-- A planet record, as found in a previously generated population. -/
def planetExample : Planet :=
  ⟨0, 0, 4.5, "rgba(255, 250, 235,", 0.95, "Venus"⟩

end

-- ============================================================
-- Meteor scheduler model (src/js/meteors.js lines 368-434)
-- ============================================================

/-- The callbacks handed to `setTimeout` by `startMeteors`
(`src/js/meteors.js`): the steady-stream `createSingleMeteor` and the shower
`triggerMeteorShower`. -/
inductive Cb where
  | createSingleMeteorCb
  | triggerMeteorShowerCb
deriving DecidableEq

/-- The scheduler's observable state: the two tracked-timeout id lists
(`activeMeteorTimeouts`, `activeShowerTimeouts`), the timers actually pending
in the runtime (id and callback), the `isShowerActive` flag, the meteors
container (`none` = not initialized; `some l` = container holding the listed
`.meteor` elements), and the next timer id the runtime will hand out. -/
structure MSt where
  activeMeteorTimeouts : List ℕ
  activeShowerTimeouts : List ℕ
  pendingTimeouts : List (ℕ × Cb)
  isShowerActive : Bool
  meteorsContainer : Option (List ℕ)
  nextId : ℕ
deriving DecidableEq

/-- `setTimeout(cb, delay)`: the runtime registers the timer and returns its
id.  (Delays are irrelevant to the tracking claims and are not modelled.) -/
def jsSetTimeout (s : MSt) (cb : Cb) : ℕ × MSt :=
  (s.nextId,
   { s with pendingTimeouts := s.pendingTimeouts ++ [(s.nextId, cb)],
            nextId := s.nextId + 1 })

/-- From `src/js/meteors.js` `startMeteors()`: schedules
`CONFIG.meteors.singleMeteorStreamCount` `createSingleMeteor` timers and one
`triggerMeteorShower` timer.  As in the source, the returned timer ids are
discarded — they are pushed to neither tracked list. -/
def startMeteors (s : MSt) : MSt :=
  let s1 := (List.range CONFIG.meteors.singleMeteorStreamCount).foldl
    (fun acc _ => (jsSetTimeout acc Cb.createSingleMeteorCb).2) s
  (jsSetTimeout s1 Cb.triggerMeteorShowerCb).2

/-- From `src/js/meteors.js` `stopMeteors()`: `clearTimeout` every id in the
two tracked lists (removing those timers from the runtime's pending set),
empty both lists, clear `isShowerActive`, and remove every `.meteor` element
from the container if it exists. -/
def stopMeteors (s : MSt) : MSt :=
  { activeMeteorTimeouts := []
    activeShowerTimeouts := []
    pendingTimeouts := s.pendingTimeouts.filter
      (fun p => decide (p.1 ∉ s.activeMeteorTimeouts) &&
        decide (p.1 ∉ s.activeShowerTimeouts))
    isShowerActive := false
    meteorsContainer := s.meteorsContainer.map (fun _ => [])
    nextId := s.nextId }

/-- A fresh scheduler state: nothing scheduled, nothing tracked, container
initialized and empty. -/
def initMSt : MSt := ⟨[], [], [], false, some [], 0⟩

-- ============================================================
-- Theorems
-- ============================================================

/-- C1 counterexample: the claim asserts `ease(1) = 0` and `ease(0.5) = 1`
for the twinkle easing function; on the code `easeInOutSine 1 = 1 ≠ 0` and
`easeInOutSine (1/2) = 1/2 ≠ 1`. -/
theorem easeInOutSine_claimed_values_false :
    easeInOutSine 1 = 1 ∧ easeInOutSine 1 ≠ 0 ∧
    easeInOutSine (1/2) = 1/2 ∧ easeInOutSine (1/2) ≠ 1 := by
  have h1 : easeInOutSine 1 = 1 := by
    unfold easeInOutSine
    rw [mul_one, Real.cos_pi]
    norm_num
  have h2 : easeInOutSine (1/2) = 1/2 := by
    unfold easeInOutSine
    rw [show π * (1/2) = π / 2 by ring, Real.cos_pi_div_two]
    norm_num
  refine ⟨h1, ?_, h2, ?_⟩
  · rw [h1]; norm_num
  · rw [h2]; norm_num

/-- C1 (amended): the twinkle easing function `ease(t) = (1 - cos(π·t))/2`
satisfies `ease 0 = 0`, `ease (1/2) = 1/2`, `ease 1 = 1`; in particular the
values at the two endpoints of the cycle differ, so the looping pulse has a
jump at cycle boundaries. -/
theorem easeInOutSine_endpoint_values :
    easeInOutSine 0 = 0 ∧ easeInOutSine (1/2) = 1/2 ∧ easeInOutSine 1 = 1 ∧
    easeInOutSine 1 ≠ easeInOutSine 0 := by
  have h0 : easeInOutSine 0 = 0 := by
    unfold easeInOutSine
    rw [mul_zero, Real.cos_zero]
    norm_num
  have hh : easeInOutSine (1/2) = 1/2 := by
    unfold easeInOutSine
    rw [show π * (1/2) = π / 2 by ring, Real.cos_pi_div_two]
    norm_num
  have h1 : easeInOutSine 1 = 1 := by
    unfold easeInOutSine
    rw [mul_one, Real.cos_pi]
    norm_num
  refine ⟨h0, hh, h1, ?_⟩
  rw [h0, h1]
  norm_num

lemma jsMod_add_right (x y : ℝ) (hy : y ≠ 0) : jsMod (x + y) y = jsMod x y := by
  unfold jsMod
  have hdiv : (x + y) / y = x / y + 1 := by field_simp
  rw [hdiv, Int.floor_add_one]
  push_cast
  ring

/-- C2: for a twinkling star with cycle duration `d > 0`, the twinkle opacity
is periodic with period `d` at every time at or past the phase delay
(`elapsed ≥ 0`); at every time strictly before the phase delay
(`elapsed < 0`) it equals the configured minimum twinkle opacity. -/
theorem getTwinkleOpacity_periodic (star : Star) (startTime t : ℝ)
    (hd : 0 < star.twinkleDuration) :
    (0 ≤ t - startTime - star.twinkleDelay →
      getTwinkleOpacity startTime star t
        = getTwinkleOpacity startTime star (t + star.twinkleDuration)) ∧
    (t - startTime - star.twinkleDelay < 0 →
      getTwinkleOpacity startTime star t = CONFIG.stars.twinkleOpacityMin) := by
  constructor
  · intro he
    unfold getTwinkleOpacity
    have he' : ¬ (t - startTime - star.twinkleDelay < 0) := not_lt.mpr he
    have he2 : ¬ (t + star.twinkleDuration - startTime - star.twinkleDelay < 0) := by
      push_neg
      linarith
    rw [if_neg he', if_neg he2]
    have hmod : jsMod (t + star.twinkleDuration - startTime - star.twinkleDelay)
        star.twinkleDuration
        = jsMod (t - startTime - star.twinkleDelay) star.twinkleDuration := by
      rw [show t + star.twinkleDuration - startTime - star.twinkleDelay
            = (t - startTime - star.twinkleDelay) + star.twinkleDuration by ring]
      exact jsMod_add_right _ _ (ne_of_gt hd)
    rw [hmod]
  · intro he
    unfold getTwinkleOpacity
    rw [if_pos he]

/-- C2 witness: at the concrete star (delay 1, duration 2) with
`startTime = 0`, opacity at `t = 5` equals opacity at `t = 7`, and opacity at
`t = 0.5` (before the phase delay) is the configured minimum. -/
theorem getTwinkleOpacity_periodic_witness :
    0 < twinkleWitnessStar.twinkleDuration ∧
    getTwinkleOpacity 0 twinkleWitnessStar 5 = getTwinkleOpacity 0 twinkleWitnessStar 7 ∧
    getTwinkleOpacity 0 twinkleWitnessStar (1/2) = CONFIG.stars.twinkleOpacityMin := by
  have hd : (0:ℝ) < twinkleWitnessStar.twinkleDuration := by
    simp [twinkleWitnessStar]
  refine ⟨hd, ?_, ?_⟩
  · have h := (getTwinkleOpacity_periodic twinkleWitnessStar 0 5 hd).1
      (by norm_num [twinkleWitnessStar])
    norm_num [twinkleWitnessStar] at h ⊢
    exact h
  · exact (getTwinkleOpacity_periodic twinkleWitnessStar 0 (1/2) hd).2
      (by norm_num [twinkleWitnessStar])

lemma easeInOutSine_mem_unit (t : ℝ) : 0 ≤ easeInOutSine t ∧ easeInOutSine t ≤ 1 := by
  unfold easeInOutSine
  have h1 := Real.neg_one_le_cos (π * t)
  have h2 := Real.cos_le_one (π * t)
  constructor <;> nlinarith

/-- C9: for every twinkling star with positive cycle duration and every time
value (before or after the phase delay), the computed twinkle opacity lies
within `[CONFIG.stars.twinkleOpacityMin, CONFIG.stars.twinkleOpacityMax]`
(0.4 to 1.0). -/
theorem getTwinkleOpacity_bounds (star : Star) (startTime t : ℝ)
    (hd : 0 < star.twinkleDuration) :
    CONFIG.stars.twinkleOpacityMin ≤ getTwinkleOpacity startTime star t ∧
    getTwinkleOpacity startTime star t ≤ CONFIG.stars.twinkleOpacityMax := by
  simp only [getTwinkleOpacity]
  split_ifs with hc
  · constructor
    · exact le_refl _
    · unfold CONFIG.stars.twinkleOpacityMin CONFIG.stars.twinkleOpacityMax
      norm_num
  · obtain ⟨hl, hu⟩ := easeInOutSine_mem_unit
      (jsMod (t - startTime - star.twinkleDelay) star.twinkleDuration / star.twinkleDuration)
    unfold CONFIG.stars.twinkleOpacityMin CONFIG.stars.twinkleOpacityMax at *
    constructor <;> nlinarith

/-- C9 witness: the bounds hold at the concrete star (duration 2) at
`startTime = 0`, `t = 5`. -/
theorem getTwinkleOpacity_bounds_witness :
    0 < twinkleWitnessStar.twinkleDuration ∧
    (CONFIG.stars.twinkleOpacityMin ≤ getTwinkleOpacity 0 twinkleWitnessStar 5 ∧
     getTwinkleOpacity 0 twinkleWitnessStar 5 ≤ CONFIG.stars.twinkleOpacityMax) := by
  have hd : (0:ℝ) < twinkleWitnessStar.twinkleDuration := by
    simp [twinkleWitnessStar]
  exact ⟨hd, getTwinkleOpacity_bounds twinkleWitnessStar 0 5 hd⟩

lemma getSpectralColor_eval (rand : ℚ) :
    getSpectralColor rand =
      if rand ≤ 0.05 then "rgba(155, 176, 255,"
      else if rand ≤ 0.2 then "rgba(202, 215, 255,"
      else if rand ≤ 0.5 then "rgba(248, 247, 255,"
      else if rand ≤ 0.8 then "rgba(255, 210, 161,"
      else if rand ≤ 1 then "rgba(255, 204, 111,"
      else "rgba(248, 247, 255," := by
  simp only [getSpectralColor, CONFIG.stars.spectralClasses, spectralLoop]
  norm_num
  split_ifs <;> rfl

/-- C3 counterexample: the claim asserts that a draw exceeding the final
cumulative sum returns the last category of the list ("M",
`rgba(255, 204, 111,`); on the code `getSpectralColor` falls back to
`CONFIG.stars.spectralClasses[2].color` ("F-G"), shown here at draw 2, which
exceeds the final cumulative sum 1. -/
theorem getSpectralColor_overflow_not_last :
    (1:ℚ) < 2 ∧ getSpectralColor 2 = "rgba(248, 247, 255," ∧
    getSpectralColor 2 ≠ "rgba(255, 204, 111," := by
  have h : getSpectralColor 2 = "rgba(248, 247, 255," := by
    rw [getSpectralColor_eval]
    norm_num
  refine ⟨by norm_num, h, ?_⟩
  rw [h]
  decide

/-- C3 (amended): the weighted categorical sampler walks the cumulative sums
0.05, 0.2, 0.5, 0.8, 1 of the five spectral classes in list order, returning
the first label whose cumulative sum meets or exceeds the draw; a draw
exceeding the final cumulative sum returns the third category
(`spectralClasses[2]`, F-G) rather than failing. -/
theorem getSpectralColor_walks_cumulative (rand : ℚ) :
    (rand ≤ 0.05 → getSpectralColor rand = "rgba(155, 176, 255,") ∧
    (0.05 < rand → rand ≤ 0.2 → getSpectralColor rand = "rgba(202, 215, 255,") ∧
    (0.2 < rand → rand ≤ 0.5 → getSpectralColor rand = "rgba(248, 247, 255,") ∧
    (0.5 < rand → rand ≤ 0.8 → getSpectralColor rand = "rgba(255, 210, 161,") ∧
    (0.8 < rand → rand ≤ 1 → getSpectralColor rand = "rgba(255, 204, 111,") ∧
    (1 < rand → getSpectralColor rand = "rgba(248, 247, 255,") := by
  rw [getSpectralColor_eval]
  refine ⟨?_, ?_, ?_, ?_, ?_, ?_⟩
  · intro h1
    rw [if_pos h1]
  · intro h1 h2
    rw [if_neg (by linarith), if_pos h2]
  · intro h1 h2
    rw [if_neg (by linarith), if_neg (by linarith), if_pos h2]
  · intro h1 h2
    rw [if_neg (by linarith), if_neg (by linarith), if_neg (by linarith), if_pos h2]
  · intro h1 h2
    rw [if_neg (by linarith), if_neg (by linarith), if_neg (by linarith),
      if_neg (by linarith), if_pos h2]
  · intro h1
    rw [if_neg (by linarith), if_neg (by linarith), if_neg (by linarith),
      if_neg (by linarith), if_neg (by linarith)]

/-- C3 witness: the amended theorem instantiated at the in-range draw 0.1
(giving class A) and the overflow draw 2 (giving the F-G fallback). -/
theorem getSpectralColor_walks_cumulative_witness :
    ((0.05:ℚ) < 0.1 ∧ (0.1:ℚ) ≤ 0.2 ∧ getSpectralColor 0.1 = "rgba(202, 215, 255,") ∧
    ((1:ℚ) < 2 ∧ getSpectralColor 2 = "rgba(248, 247, 255,") := by
  refine ⟨⟨by norm_num, by norm_num, ?_⟩, ⟨by norm_num, ?_⟩⟩
  · exact (getSpectralColor_walks_cumulative 0.1).2.1 (by norm_num) (by norm_num)
  · exact (getSpectralColor_walks_cumulative 2).2.2.2.2.2 (by norm_num)

lemma foldl_closestStep_spec (b : ℝ) (l : List ℝ) :
    ∀ init : ℝ,
      (List.foldl (closestStep b) init l = init ∨ List.foldl (closestStep b) init l ∈ l) ∧
      |List.foldl (closestStep b) init l - b| ≤ |init - b| ∧
      (∀ a ∈ l, |List.foldl (closestStep b) init l - b| ≤ |a - b|) ∧
      (|init - b| ≤ |List.foldl (closestStep b) init l - b| →
        List.foldl (closestStep b) init l = init) := by
  induction l with
  | nil =>
    intro init
    simp
  | cons c l ih =>
    intro init
    rw [List.foldl_cons]
    by_cases h : |c - b| < |init - b|
    · have hs : closestStep b init c = c := if_pos h
      rw [hs]
      obtain ⟨ihm, ihle, ihall, ihtie⟩ := ih c
      refine ⟨?_, by linarith, ?_, ?_⟩
      · rcases ihm with h1 | h1
        · right
          rw [h1]
          exact List.mem_cons_self _ _
        · right
          exact List.mem_cons_of_mem _ h1
      · intro a ha
        rcases List.mem_cons.mp ha with rfl | ha'
        · exact ihle
        · exact ihall a ha'
      · intro hge
        exfalso
        linarith
    · have hs : closestStep b init c = init := if_neg h
      rw [hs]
      obtain ⟨ihm, ihle, ihall, ihtie⟩ := ih init
      push_neg at h
      refine ⟨?_, ihle, ?_, ihtie⟩
      · rcases ihm with h1 | h1
        · left
          exact h1
        · right
          exact List.mem_cons_of_mem _ h1
      · intro a ha
        rcases List.mem_cons.mp ha with rfl | ha'
        · linarith
        · exact ihall a ha'

lemma foldl_closestStep_first_tie (b : ℝ) (l : List ℝ) :
    ∀ init : ℝ, (∀ a ∈ l, init < a) → l.Pairwise (· < ·) →
      ∀ a, (a = init ∨ a ∈ l) →
        |a - b| = |List.foldl (closestStep b) init l - b| →
        List.foldl (closestStep b) init l ≤ a := by
  induction l with
  | nil =>
    intro init _ _ a ha _
    rcases ha with rfl | h
    · simp
    · cases h
  | cons c l ih =>
    intro init hlt hpw a ha htie
    rw [List.foldl_cons] at htie ⊢
    obtain ⟨hpc, hpl⟩ := List.pairwise_cons.mp hpw
    by_cases h : |c - b| < |init - b|
    · have hs : closestStep b init c = c := if_pos h
      rw [hs] at htie ⊢
      rcases ha with rfl | ha'
      · exfalso
        have hle := (foldl_closestStep_spec b l c).2.1
        linarith [htie ▸ hle]
      · refine ih c hpc hpl a ?_ htie
        rcases List.mem_cons.mp ha' with rfl | h2
        · exact Or.inl rfl
        · exact Or.inr h2
    · have hs : closestStep b init c = init := if_neg h
      rw [hs] at htie ⊢
      push_neg at h
      rcases ha with rfl | ha'
      · exact ih _ (fun x hx => hlt x (List.mem_cons_of_mem _ hx)) hpl _ (Or.inl rfl) htie
      · rcases List.mem_cons.mp ha' with rfl | h2
        · have hspec := foldl_closestStep_spec b l init
          have hle : |List.foldl (closestStep b) init l - b| ≤ |init - b| := hspec.2.1
          have hge : |init - b| ≤ |List.foldl (closestStep b) init l - b| := by
            rw [← htie] at hle ⊢
            linarith
          rw [hspec.2.2.2 hge]
          exact le_of_lt (hlt a (List.mem_cons_self _ _))
        · exact ih init (fun x hx => hlt x (List.mem_cons_of_mem _ hx)) hpl a (Or.inr h2) htie

/-- C6: for every real seed angle, `selectMeteorAngle` returns a member of
`METEOR_ANGLES` minimizing the absolute difference to the seed, and among
minimizers it returns the one encountered first in set order (the set is
ascending, so the numerically least one); in particular the seed 158 snaps
to 160. -/
theorem selectMeteorAngle_nearest (b : ℝ) :
    selectMeteorAngle b ∈ METEOR_ANGLES ∧
    (∀ a ∈ METEOR_ANGLES, |selectMeteorAngle b - b| ≤ |a - b|) ∧
    (∀ a ∈ METEOR_ANGLES, |a - b| = |selectMeteorAngle b - b| → selectMeteorAngle b ≤ a) ∧
    selectMeteorAngle 158 = 160 := by
  have htail : METEOR_ANGLES.tail = [135, 140, 145, 150, 155, 160, 165] := rfl
  have hhead : METEOR_ANGLES.headD 0 = 130 := rfl
  have hspec := foldl_closestStep_spec b [135, 140, 145, 150, 155, 160, 165] 130
  have hmem130 : ∀ x : ℝ, x ∈ METEOR_ANGLES ↔
      x = 130 ∨ x ∈ [(135:ℝ), 140, 145, 150, 155, 160, 165] := by
    intro x
    simp [METEOR_ANGLES]
  refine ⟨?_, ?_, ?_, ?_⟩
  · unfold selectMeteorAngle
    rw [htail, hhead, hmem130]
    rcases hspec.1 with h1 | h1
    · exact Or.inl h1
    · exact Or.inr h1
  · intro a ha
    unfold selectMeteorAngle
    rw [htail, hhead]
    rcases (hmem130 a).mp ha with rfl | ha'
    · exact hspec.2.1
    · exact hspec.2.2.1 a ha'
  · intro a ha htie
    unfold selectMeteorAngle at htie ⊢
    rw [htail, hhead] at htie ⊢
    refine foldl_closestStep_first_tie b _ 130 ?_ ?_ a ?_ htie
    · intro x hx
      rcases (by simpa using hx : x = 135 ∨ x = 140 ∨ x = 145 ∨ x = 150 ∨ x = 155 ∨
        x = 160 ∨ x = 165) with rfl | rfl | rfl | rfl | rfl | rfl | rfl <;> norm_num
    · norm_num [List.pairwise_cons]
    · exact (hmem130 a).mp ha
  · unfold selectMeteorAngle
    rw [htail, hhead]
    have s1 : closestStep 158 130 135 = 135 := by
      unfold closestStep
      rw [abs_of_nonpos (by norm_num : (135:ℝ) - 158 ≤ 0),
        abs_of_nonpos (by norm_num : (130:ℝ) - 158 ≤ 0)]
      norm_num
    have s2 : closestStep 158 135 140 = 140 := by
      unfold closestStep
      rw [abs_of_nonpos (by norm_num : (140:ℝ) - 158 ≤ 0),
        abs_of_nonpos (by norm_num : (135:ℝ) - 158 ≤ 0)]
      norm_num
    have s3 : closestStep 158 140 145 = 145 := by
      unfold closestStep
      rw [abs_of_nonpos (by norm_num : (145:ℝ) - 158 ≤ 0),
        abs_of_nonpos (by norm_num : (140:ℝ) - 158 ≤ 0)]
      norm_num
    have s4 : closestStep 158 145 150 = 150 := by
      unfold closestStep
      rw [abs_of_nonpos (by norm_num : (150:ℝ) - 158 ≤ 0),
        abs_of_nonpos (by norm_num : (145:ℝ) - 158 ≤ 0)]
      norm_num
    have s5 : closestStep 158 150 155 = 155 := by
      unfold closestStep
      rw [abs_of_nonpos (by norm_num : (155:ℝ) - 158 ≤ 0),
        abs_of_nonpos (by norm_num : (150:ℝ) - 158 ≤ 0)]
      norm_num
    have s6 : closestStep 158 155 160 = 160 := by
      unfold closestStep
      rw [abs_of_nonneg (by norm_num : (0:ℝ) ≤ 160 - 158),
        abs_of_nonpos (by norm_num : (155:ℝ) - 158 ≤ 0)]
      norm_num
    have s7 : closestStep 158 160 165 = 160 := by
      unfold closestStep
      rw [abs_of_nonneg (by norm_num : (0:ℝ) ≤ 165 - 158),
        abs_of_nonneg (by norm_num : (0:ℝ) ≤ 160 - 158)]
      norm_num
    rw [List.foldl_cons, s1, List.foldl_cons, s2, List.foldl_cons, s3, List.foldl_cons, s4,
      List.foldl_cons, s5, List.foldl_cons, s6, List.foldl_cons, s7, List.foldl_nil]

/-- C6 witness: at seed 158 the selected angle is 160, it is at least as close
to 158 as the preset 155, and 155 is in the preset set. -/
theorem selectMeteorAngle_nearest_witness :
    selectMeteorAngle 158 = 160 ∧
    |selectMeteorAngle 158 - 158| ≤ |(155:ℝ) - 158| ∧ (155:ℝ) ∈ METEOR_ANGLES := by
  have hm : (155:ℝ) ∈ METEOR_ANGLES := by norm_num [METEOR_ANGLES]
  exact ⟨(selectMeteorAngle_nearest 158).2.2.2,
    (selectMeteorAngle_nearest 158).2.1 155 hm, hm⟩

/-- C7: the claim says every timer the scheduler creates is tracked by a
retrievable handle and that suspension cancels all outstanding handles,
including the timers scheduled at start-up.  On the code this fails:
`startMeteors` discards the ids of its three start-up `setTimeout` calls, so
after `startMeteors` nothing is tracked, and after an immediate `stopMeteors`
all three timers (two `createSingleMeteor`, one `triggerMeteorShower`) are
still pending and can fire after suspension. -/
theorem startMeteors_startup_timers_untracked :
    (startMeteors initMSt).activeMeteorTimeouts = [] ∧
    (startMeteors initMSt).activeShowerTimeouts = [] ∧
    (startMeteors initMSt).pendingTimeouts =
      [(0, Cb.createSingleMeteorCb), (1, Cb.createSingleMeteorCb),
       (2, Cb.triggerMeteorShowerCb)] ∧
    (stopMeteors (startMeteors initMSt)).pendingTimeouts =
      [(0, Cb.createSingleMeteorCb), (1, Cb.createSingleMeteorCb),
       (2, Cb.triggerMeteorShowerCb)] := by
  decide

/-- C10: `stopMeteors` establishes a fixed post-state regardless of the prior
state — both tracked-timeout lists empty, the shower flag false, and the
meteors container (when present) emptied of meteor elements — and it is
idempotent: a second call changes nothing. -/
theorem stopMeteors_idempotent_post_state (s : MSt) :
    (stopMeteors s).activeMeteorTimeouts = [] ∧
    (stopMeteors s).activeShowerTimeouts = [] ∧
    (stopMeteors s).isShowerActive = false ∧
    (stopMeteors s).meteorsContainer = s.meteorsContainer.map (fun _ => ([] : List ℕ)) ∧
    stopMeteors (stopMeteors s) = stopMeteors s := by
  refine ⟨rfl, rfl, rfl, rfl, ?_⟩
  unfold stopMeteors
  congr 1
  · rw [List.filter_eq_self]
    intro a _
    simp
  · cases s.meteorsContainer <;> rfl

lemma keyframe_entry_spec (a m : ℝ) (h90 : 90 < a) (h180 : a < 180) (hm : 0 < m) :
    Real.sqrt ((Real.cos (a * π / 180) * m) ^ 2 + (Real.sin (a * π / 180) * m) ^ 2) = m ∧
    atan2 (Real.sin (a * π / 180) * m) (Real.cos (a * π / 180) * m) = a * π / 180 := by
  have hpi := Real.pi_pos
  set θ := a * π / 180 with hθ
  have hθ1 : π / 2 < θ := by
    rw [hθ]
    nlinarith
  have hθ2 : θ < π := by
    rw [hθ]
    nlinarith
  have hcos : Real.cos θ < 0 := Real.cos_neg_of_pi_div_two_lt_of_lt hθ1 (by linarith)
  have hsin : 0 < Real.sin θ := Real.sin_pos_of_pos_of_lt_pi (by linarith) hθ2
  constructor
  · have hsq : (Real.cos θ * m) ^ 2 + (Real.sin θ * m) ^ 2 = m ^ 2 := by
      have hpyth := Real.sin_sq_add_cos_sq θ
      nlinarith
    rw [hsq, Real.sqrt_sq hm.le]
  · have hx : Real.cos θ * m < 0 := mul_neg_of_neg_of_pos hcos hm
    have hy : 0 ≤ Real.sin θ * m := le_of_lt (mul_pos hsin hm)
    unfold atan2
    rw [if_neg (not_lt.mpr hx.le), if_pos ⟨hx, hy⟩]
    have hdiv : Real.sin θ * m / (Real.cos θ * m) = Real.tan θ := by
      rw [mul_div_mul_right _ _ hm.ne', Real.tan_eq_sin_div_cos]
    rw [hdiv]
    have htan : Real.tan θ = Real.tan (θ - π) := (Real.tan_periodic.sub_eq θ).symm
    rw [htan, Real.arctan_tan (by linarith) (by linarith)]
    ring

/-- C5 counterexample: the claim quantifies over every positive viewport
diagonal, but at diagonal 1 the "short" tier distance is `1 - 25 = -24`, and
the generated keyframe's displacement magnitude (a square root, hence
nonnegative) cannot equal it. -/
theorem generateMeteorKeyframes_small_diagonal :
    (0:ℝ) < 1 ∧ badKeyframe ∈ generateMeteorKeyframes 1 ∧
    Real.sqrt (badKeyframe.endX ^ 2 + badKeyframe.endY ^ 2) ≠ distances 1 Tier.short := by
  refine ⟨by norm_num, ?_, ?_⟩
  · unfold generateMeteorKeyframes
    rw [if_neg (by norm_num : (1:ℝ) ≠ 0)]
    simp only [METEOR_ANGLES, DISTANCE_TIERS, List.flatMap_cons, List.map_cons, List.map_nil]
    exact List.mem_append_left _ (List.mem_cons_self _ _)
  · have h1 : distances 1 Tier.short = -24 := by
      simp [distances]
      norm_num
    rw [h1]
    intro heq
    have h2 := Real.sqrt_nonneg (badKeyframe.endX ^ 2 + badKeyframe.endY ^ 2)
    rw [heq] at h2
    linarith

/-- C5 (amended): for every viewport diagonal greater than 25 — so that all
three tier distances `diagonal-25`, `diagonal`, `diagonal+25` are positive —
the keyframe table has exactly 24 (angle, tier) entries, and every entry's
displacement has magnitude equal to its tier distance and direction
`atan2(endY, endX)` equal to its angle in radians. -/
theorem generateMeteorKeyframes_spec (d : ℝ) (hd : 25 < d) :
    (generateMeteorKeyframes d).length = 24 ∧
    ∀ kf ∈ generateMeteorKeyframes d,
      Real.sqrt (kf.endX ^ 2 + kf.endY ^ 2) = distances d kf.tier ∧
      atan2 kf.endY kf.endX = kf.angle * π / 180 := by
  have hd0 : d ≠ 0 := by linarith
  constructor
  · unfold generateMeteorKeyframes
    rw [if_neg hd0]
    rfl
  · intro kf hkf
    unfold generateMeteorKeyframes at hkf
    rw [if_neg hd0] at hkf
    simp only [List.mem_flatMap, List.mem_map, METEOR_ANGLES, DISTANCE_TIERS, List.mem_cons,
      List.not_mem_nil, or_false] at hkf
    obtain ⟨a, ha, t, ht, rfl⟩ := hkf
    have ha' : 90 < a ∧ a < 180 := by
      rcases ha with rfl | rfl | rfl | rfl | rfl | rfl | rfl | rfl <;> norm_num
    have hm : 0 < distances d t := by
      rcases ht with rfl | rfl | rfl <;> simp [distances] <;> linarith
    exact keyframe_entry_spec a (distances d t) ha'.1 ha'.2 hm

/-- C5 witness: the amended theorem instantiated at diagonal 100, giving the
24-entry table. -/
theorem generateMeteorKeyframes_spec_witness :
    (25:ℝ) < 100 ∧ (generateMeteorKeyframes 100).length = 24 :=
  ⟨by norm_num, (generateMeteorKeyframes_spec 100 (by norm_num)).1⟩

/-- C4 counterexample: the claim asserts that on invalid dimensions *both*
the star list and the planet list are empty after the call; but when the
prior population contains a planet and `generateStars` is called with width
0, the star list is emptied while the planet list still holds the prior
planet. -/
theorem generateStars_invalid_dims_planets_kept :
    (generateStars ⟨[], [planetExample]⟩ 1024 (some 0) (some 100) (fun _ => 0)).stars = [] ∧
    (generateStars ⟨[], [planetExample]⟩ 1024 (some 0) (some 100) (fun _ => 0)).planets ≠ [] := by
  have h : (dimInvalid (some 0) || dimInvalid (some 100)) = true := by
    simp [dimInvalid]
  unfold generateStars
  rw [if_pos h]
  exact ⟨rfl, by simp⟩

/-- C4 (amended): for every invalid input dimension pair (width or height
zero, negative, or undefined), `generateStars` empties the star list and
returns without failing; the planet list is left exactly as it was before
the call (it is emptied only if it was already empty). -/
theorem generateStars_invalid_dims (prior : SkyState) (innerWidth : ℚ)
    (cw ch : Option ℚ) (g : RNG)
    (hinv : (dimInvalid cw || dimInvalid ch) = true) :
    generateStars prior innerWidth cw ch g = { stars := [], planets := prior.planets } := by
  unfold generateStars
  rw [if_pos hinv]

/-- C4 witness: the amended theorem instantiated at width 0 with a prior
population holding one planet. -/
theorem generateStars_invalid_dims_witness :
    (dimInvalid (some 0) || dimInvalid (some 100)) = true ∧
    generateStars ⟨[], [planetExample]⟩ 1024 (some 0) (some 100) (fun _ => 0)
      = { stars := [], planets := [planetExample] } := by
  have h : (dimInvalid (some 0) || dimInvalid (some 100)) = true := by
    simp [dimInvalid]
  exact ⟨h, generateStars_invalid_dims ⟨[], [planetExample]⟩ 1024 (some 0) (some 100)
    (fun _ => 0) h⟩

lemma genStarGroup_badRng_fst :
    (genStarGroup 100 100 badRng).1 = [badPrimaryStar, badCompanionStar] := by
  have h4 : badRng 4 < CONFIG.stars.staticPercentage := by
    norm_num [badRng, CONFIG.stars.staticPercentage]
  have h6 : badRng 6 < CONFIG.stars.binaryPercentage := by
    norm_num [badRng, CONFIG.stars.binaryPercentage]
  have hcolor : getSpectralColor (badRng 3) = "rgba(155, 176, 255," := by
    rw [show badRng 3 = 0 from rfl, getSpectralColor_eval]
    norm_num
  have hcos : Real.cos ((badRng (6 + 1) : ℝ) * π * 2) = -1 := by
    rw [show badRng (6 + 1) = 1/2 from rfl]
    push_cast
    rw [show (1:ℝ)/2 * π * 2 = π by ring, Real.cos_pi]
  have hsin : Real.sin ((badRng (6 + 1) : ℝ) * π * 2) = 0 := by
    rw [show badRng (6 + 1) = 1/2 from rfl]
    push_cast
    rw [show (1:ℝ)/2 * π * 2 = π by ring, Real.sin_pi]
  have hrpow : ((badRng 1 : ℝ) ^ (1.5 : ℝ)) = 0 := by
    rw [show badRng 1 = 0 from rfl]
    push_cast
    exact Real.zero_rpow (by norm_num)
  simp only [genStarGroup, h4, h6, if_true, hcolor, hcos, hsin, hrpow]
  simp only [badPrimaryStar, badCompanionStar, Star.mk.injEq, List.cons.injEq, and_true,
    List.cons_ne_nil]
  norm_num [badRng, CONFIG.stars.minSize, CONFIG.stars.maxSize, CONFIG.stars.staticOpacityMin,
    CONFIG.stars.staticOpacityMax, CONFIG.stars.binarySeparationMin,
    CONFIG.stars.binarySeparationMax]

lemma badCompanionStar_mem :
    badCompanionStar ∈ (generateStars ⟨[], []⟩ 1024 (some 100) (some 100) badRng).stars := by
  have hvalid : (dimInvalid (some (100:ℚ)) || dimInvalid (some (100:ℚ))) = false := by
    simp [dimInvalid]
  unfold generateStars
  rw [hvalid]
  simp only [Bool.false_eq_true, if_false]
  rw [show getStarCount 1024 = 1200 by norm_num [getStarCount, CONFIG.stars.mobileBreakpoint,
    CONFIG.stars.countDesktop]]
  rw [show (1200:ℕ) = 1199 + 1 from rfl]
  rw [genStarsLoop]
  simp only [Option.getD_some]
  rw [List.mem_append] at *
  left
  rw [show ((100:ℚ):ℝ) = (100:ℝ) by norm_num] at *
  rw [genStarGroup_badRng_fst]
  simp

/-- C8 counterexample: the claim asserts `0 ≤ x` for every star of a valid
generation pass including binary companions; with the concrete draw stream
`badRng` on a 100×100 canvas the first iteration's companion lands at
`x = -2 < 0`. -/
theorem generateStars_companion_out_of_bounds :
    badCompanionStar ∈ (generateStars ⟨[], []⟩ 1024 (some 100) (some 100) badRng).stars ∧
    badCompanionStar.x < 0 := by
  refine ⟨badCompanionStar_mem, ?_⟩
  norm_num [badCompanionStar]

lemma companion_offset_bound (c : ℝ) (hc : |c| ≤ 1) (s : ℝ) (h0 : 0 ≤ s) (h8 : s ≤ 8) :
    -8 ≤ c * s ∧ c * s ≤ 8 := by
  have habs : |c * s| ≤ 8 := by
    rw [abs_mul, abs_of_nonneg h0]
    nlinarith [abs_nonneg c]
  exact ⟨neg_le_of_abs_le habs, le_of_abs_le habs⟩

lemma genStarGroup_bounds (w h : ℝ) (g : RNG) (hw : 0 < w) (hh : 0 < h)
    (hg : ∀ k, 0 ≤ g k ∧ g k < 1) :
    ∀ st ∈ (genStarGroup w h g).1,
      -8 ≤ st.x ∧ st.x ≤ w + 8 ∧ -8 ≤ st.y ∧ st.y ≤ h + 8 := by
  have hcast : ∀ k, (0:ℝ) ≤ (g k : ℝ) ∧ (g k : ℝ) ≤ 1 := by
    intro k
    constructor
    · exact_mod_cast (hg k).1
    · exact_mod_cast (hg k).2.le
  have hxb : 0 ≤ (g 0 : ℝ) * w ∧ (g 0 : ℝ) * w ≤ w :=
    ⟨mul_nonneg (hcast 0).1 hw.le, mul_le_of_le_one_left hw.le (hcast 0).2⟩
  have hyv : 0 ≤ ((g 1 : ℝ) ^ (1.5 : ℝ)) ∧ ((g 1 : ℝ) ^ (1.5 : ℝ)) ≤ 1 :=
    ⟨Real.rpow_nonneg (hcast 1).1 _, Real.rpow_le_one (hcast 1).1 (hcast 1).2 (by norm_num)⟩
  have hyb : 0 ≤ ((g 1 : ℝ) ^ (1.5 : ℝ)) * h ∧ ((g 1 : ℝ) ^ (1.5 : ℝ)) * h ≤ h :=
    ⟨mul_nonneg hyv.1 hh.le, mul_le_of_le_one_left hh.le hyv.2⟩
  have hsep : ∀ k, 0 ≤ CONFIG.stars.binarySeparationMin +
      (g k : ℝ) * (CONFIG.stars.binarySeparationMax - CONFIG.stars.binarySeparationMin) ∧
      CONFIG.stars.binarySeparationMin +
      (g k : ℝ) * (CONFIG.stars.binarySeparationMax - CONFIG.stars.binarySeparationMin) ≤ 8 := by
    intro k
    unfold CONFIG.stars.binarySeparationMin CONFIG.stars.binarySeparationMax
    constructor <;> nlinarith [(hcast k).1, (hcast k).2]
  have hcosb : ∀ (a : ℝ) (k : ℕ),
      -8 ≤ Real.cos a * (CONFIG.stars.binarySeparationMin +
        (g k : ℝ) * (CONFIG.stars.binarySeparationMax - CONFIG.stars.binarySeparationMin)) ∧
      Real.cos a * (CONFIG.stars.binarySeparationMin +
        (g k : ℝ) * (CONFIG.stars.binarySeparationMax - CONFIG.stars.binarySeparationMin)) ≤ 8 :=
    fun a k => companion_offset_bound _ (Real.abs_cos_le_one a) _ (hsep k).1 (hsep k).2
  have hsinb : ∀ (a : ℝ) (k : ℕ),
      -8 ≤ Real.sin a * (CONFIG.stars.binarySeparationMin +
        (g k : ℝ) * (CONFIG.stars.binarySeparationMax - CONFIG.stars.binarySeparationMin)) ∧
      Real.sin a * (CONFIG.stars.binarySeparationMin +
        (g k : ℝ) * (CONFIG.stars.binarySeparationMax - CONFIG.stars.binarySeparationMin)) ≤ 8 :=
    fun a k => companion_offset_bound _ (Real.abs_sin_le_one a) _ (hsep k).1 (hsep k).2
  intro st hst
  simp only [genStarGroup] at hst
  split_ifs at hst with h4 hb hb
  all_goals simp only [List.mem_cons, List.not_mem_nil, or_false] at hst
  all_goals rcases hst with rfl | rfl
  -- primary (static, with companion) / companion (static) /
  -- primary (static, no companion) / primary (twinkling, with companion) /
  -- companion (twinkling) / primary (twinkling, no companion)
  · exact ⟨by linarith [hxb.1], by linarith [hxb.2], by linarith [hyb.1], by linarith [hyb.2]⟩
  · refine ⟨?_, ?_, ?_, ?_⟩
    · have := (hcosb ((g (6+1) : ℝ) * π * 2) (6+2)).1
      simp only
      linarith [hxb.1]
    · have := (hcosb ((g (6+1) : ℝ) * π * 2) (6+2)).2
      simp only
      linarith [hxb.2]
    · have := (hsinb ((g (6+1) : ℝ) * π * 2) (6+2)).1
      simp only
      linarith [hyb.1]
    · have := (hsinb ((g (6+1) : ℝ) * π * 2) (6+2)).2
      simp only
      linarith [hyb.2]
  · exact ⟨by linarith [hxb.1], by linarith [hxb.2], by linarith [hyb.1], by linarith [hyb.2]⟩
  · exact ⟨by linarith [hxb.1], by linarith [hxb.2], by linarith [hyb.1], by linarith [hyb.2]⟩
  · refine ⟨?_, ?_, ?_, ?_⟩
    · have := (hcosb ((g (7+1) : ℝ) * π * 2) (7+2)).1
      simp only
      linarith [hxb.1]
    · have := (hcosb ((g (7+1) : ℝ) * π * 2) (7+2)).2
      simp only
      linarith [hxb.2]
    · have := (hsinb ((g (7+1) : ℝ) * π * 2) (7+2)).1
      simp only
      linarith [hyb.1]
    · have := (hsinb ((g (7+1) : ℝ) * π * 2) (7+2)).2
      simp only
      linarith [hyb.2]
  · exact ⟨by linarith [hxb.1], by linarith [hxb.2], by linarith [hyb.1], by linarith [hyb.2]⟩

lemma genStarsLoop_bounds (w h : ℝ) (hw : 0 < w) (hh : 0 < h) :
    ∀ (n : ℕ) (g : RNG), (∀ k, 0 ≤ g k ∧ g k < 1) →
      ∀ st ∈ (genStarsLoop w h n g).1,
        -8 ≤ st.x ∧ st.x ≤ w + 8 ∧ -8 ≤ st.y ∧ st.y ≤ h + 8 := by
  intro n
  induction n with
  | zero =>
    intro g hg st hst
    simp [genStarsLoop] at hst
  | succ n ih =>
    intro g hg st hst
    simp only [genStarsLoop] at hst
    rw [List.mem_append] at hst
    rcases hst with hst | hst
    · exact genStarGroup_bounds w h g hw hh hg st hst
    · exact ih (fun i => g (i + (genStarGroup w h g).2)) (fun k => hg _) st hst

/-- C8 (amended): for every generation pass with valid width and height and
draws in `[0,1)`, every produced star — primaries and binary companions —
lies within the viewport bounds relaxed by the maximum binary separation
(8 px): `-8 ≤ x ≤ width + 8` and `-8 ≤ y ≤ height + 8`.  (Primaries land in
`[0,width] × [0,height]`; companions are offset from a primary by at most
the maximum separation and are not clamped.) -/
theorem generateStars_star_bounds (prior : SkyState) (innerWidth : ℚ) (w h : ℚ)
    (hw : 0 < w) (hh : 0 < h) (g : RNG) (hg : ∀ k, 0 ≤ g k ∧ g k < 1) :
    ∀ st ∈ (generateStars prior innerWidth (some w) (some h) g).stars,
      -8 ≤ st.x ∧ st.x ≤ (w:ℝ) + 8 ∧ -8 ≤ st.y ∧ st.y ≤ (h:ℝ) + 8 := by
  intro st hst
  have hvalid : (dimInvalid (some w) || dimInvalid (some h)) = false := by
    simp [dimInvalid]
    constructor <;> linarith
  unfold generateStars at hst
  rw [hvalid] at hst
  simp only [Bool.false_eq_true, if_false, Option.getD_some] at hst
  have hw' : (0:ℝ) < (w:ℝ) := by exact_mod_cast hw
  have hh' : (0:ℝ) < (h:ℝ) := by exact_mod_cast hh
  exact genStarsLoop_bounds (w:ℝ) (h:ℝ) hw' hh' (getStarCount innerWidth) g hg st hst

/-- C8 witness: the amended bounds instantiated on the 100×100 pass driven by
`badRng` (whose draws all lie in `[0,1)`), applied to the out-of-viewport
companion star that pass produces. -/
theorem generateStars_star_bounds_witness :
    (0:ℚ) < 100 ∧ (∀ k, 0 ≤ badRng k ∧ badRng k < 1) ∧
    (-8 ≤ badCompanionStar.x ∧ badCompanionStar.x ≤ ((100:ℚ):ℝ) + 8 ∧
     -8 ≤ badCompanionStar.y ∧ badCompanionStar.y ≤ ((100:ℚ):ℝ) + 8) := by
  have hg : ∀ k, 0 ≤ badRng k ∧ badRng k < 1 := by
    intro k
    unfold badRng
    split <;> norm_num
  exact ⟨by norm_num, hg,
    generateStars_star_bounds ⟨[], []⟩ 1024 100 100 (by norm_num) (by norm_num) badRng hg
      badCompanionStar badCompanionStar_mem⟩

end Stardew
